import Mathlib

/-!
Verification development for the genome_extractor repository
(scripts/download_accessions.py, scripts/fast_download.py,
scripts/extract_metadata.py).

Python strings are modelled as Lean `String` (a structure over `List Char`);
Python's `str.lower`/`str.upper` are modelled with `Char.toLower`/`Char.toUpper`,
which agree with Python on ASCII (every literal the scripts compare against is
ASCII).  Python's substring test `needle in hay` is modelled by `pyIn` below,
`str.startswith` by `isPrefixOfB`, `str.strip` by `stripB`.
-/

/-- Boolean prefix test on character lists: `isPrefixOfB p s` is true iff
`p` is a prefix of `s` (model of Python `str.startswith`). -/
def isPrefixOfB : List Char → List Char → Bool
  | [], _ => true
  | _ :: _, [] => false
  | c :: cs, d :: ds => c == d && isPrefixOfB cs ds

/-- Boolean substring test: `pyIn needle hay` is true iff `needle` occurs as a
contiguous substring of `hay` (model of Python `needle in hay`). -/
def pyIn (needle : List Char) : List Char → Bool
  | [] => isPrefixOfB needle []
  | d :: ds => isPrefixOfB needle (d :: ds) || pyIn needle ds

/-- Model of Python `str.strip()`: drop leading and trailing whitespace. -/
def stripB (s : List Char) : List Char :=
  ((s.dropWhile Char.isWhitespace).reverse.dropWhile Char.isWhitespace).reverse

/-- `hay` contains `needle` as a substring (Python `needle in hay`). -/
def strContains (hay needle : String) : Bool := pyIn needle.data hay.data

/-- Python `s.startswith(p)`. -/
def strStartsWith (s p : String) : Bool := isPrefixOfB p.data s.data

/-- Python `s.lower()` (ASCII case mapping). -/
def strLower (s : String) : String := ⟨s.data.map Char.toLower⟩

/-- Python `s.upper()` (ASCII case mapping). -/
def strUpper (s : String) : String := ⟨s.data.map Char.toUpper⟩

/-- Python `s.strip()`. -/
def strStrip (s : String) : String := ⟨stripB s.data⟩

/-- Python `s[:n]` for a nonnegative slice bound. -/
def strTake (s : String) (n : Nat) : String := ⟨s.data.take n⟩

/-- Model of Python `s.replace(old, new)` on character lists: non-overlapping
replacement scanning left to right, structurally recursive on a fuel argument
so that it reduces definitionally (each step consumes at least one character,
so `s.length` fuel always suffices).  The scripts only call it with a
nonempty `old`; for an empty `old` this model leaves the string unchanged. -/
def replaceBAux (old new : List Char) : Nat → List Char → List Char
  | _, [] => []
  | 0, s => s
  | Nat.succ fuel, c :: rest =>
    if old.isEmpty then c :: replaceBAux old new fuel rest
    else if isPrefixOfB old (c :: rest) then
      new ++ replaceBAux old new fuel (List.drop (old.length - 1) rest)
    else c :: replaceBAux old new fuel rest

def replaceB (old new s : List Char) : List Char :=
  replaceBAux old new s.length s

/-- Python `s.replace(old, new)` on strings. -/
def strReplace (s old new : String) : String := ⟨replaceB old.data new.data s.data⟩

/-!
## scripts/download_accessions.py — genome type filter and classifier
-/

/-- Embedding of `_passes_genome_type_filter` from
scripts/download_accessions.py (lines 42-50). -/
def _passes_genome_type_filter (genome_type : String)
    (include_types exclude_types : List String) : Bool :=
  if include_types.contains "all" then
    !(exclude_types.contains genome_type)
  else
    include_types.contains genome_type && !(exclude_types.contains genome_type)

/-- Embedding of `_detect_genome_type` from scripts/download_accessions.py
(lines 53-81).  The Python guards `title.lower() if title else ''` and
`accession.upper() if accession else ''` coincide with unconditional
lower/upper-casing, since the guard only redirects the empty string. -/
def _detect_genome_type (title accession : String) : String :=
  if strContains (strLower title) "plasmid" ||
     strContains (strUpper accession) "plasmid" then "plasmid"
  else if strContains (strLower title) "complete genome" ||
          strContains (strLower title) "complete sequence" ||
          strContains (strLower title) "chromosome" ||
          strStartsWith (strUpper accession) "CP" ||
          strStartsWith (strUpper accession) "NC_" ||
          strStartsWith (strUpper accession) "NZ_CP" then "complete"
  else if strContains (strLower title) "scaffold" then "scaffold"
  else if strContains (strLower title) "contig" then "contig"
  else if strContains (strLower title) "chromosome" &&
          !(["plasmid", "scaffold", "contig"].any
              (fun x => strContains (strLower title) x)) then "chromosome"
  else "unknown"

/-!
## scripts/fast_download.py — pattern-only classifier
-/

/-- The normalisation `accession.upper().strip()` applied by
`fast_detect_genome_type` (scripts/fast_download.py line 25). -/
def fastAccNorm (accession : String) : String := strStrip (strUpper accession)

/-- Embedding of `fast_detect_genome_type` from scripts/fast_download.py
(lines 23-51). -/
def fast_detect_genome_type (accession : String) : String :=
  if strStartsWith (fastAccNorm accession) "CP" ||
     strStartsWith (fastAccNorm accession) "NC_" ||
     strStartsWith (fastAccNorm accession) "AP" ||
     strStartsWith (fastAccNorm accession) "NZ_CP" ||
     strStartsWith (fastAccNorm accession) "NZ_NC" then "complete"
  else if strStartsWith (fastAccNorm accession) "NZ_" then
    if strContains (fastAccNorm accession) "01000" ||
       strContains (fastAccNorm accession) "02000" ||
       strContains (fastAccNorm accession) "03000" ||
       strContains (fastAccNorm accession) "04000" ||
       strContains (fastAccNorm accession) "05000" then "contig"
    else if strContains (fastAccNorm accession) "00000000" then "contig"
    else "complete"
  else if strStartsWith (fastAccNorm accession) "OW" ||
          strStartsWith (fastAccNorm accession) "OX" then "complete"
  else "complete"

/-- Case-insensitive substring occurrence, following the wording of the spec
("the substring occurs anywhere ..., compared case-insensitively"). -/
def contains_case_insensitive (s sub : String) : Bool :=
  strContains (strLower s) (strLower sub)

/-- Numeric value of a digit string (most significant digit first). -/
def digitsToNat (w : List Char) : Nat := w.foldl (fun n c => 10 * n + (c.toNat - 48)) 0

/-- Claim-side predicate following the wording of C4: the (normalised)
accession contains, anywhere, a 5-digit token whose numeric value lies in the
range 01000-05000. -/
def spec_contig_range_token (accession : String) : Bool :=
  (List.range (fastAccNorm accession).data.length).any (fun i =>
    ((((fastAccNorm accession).data.drop i).take 5).length == 5) &&
    (((fastAccNorm accession).data.drop i).take 5).all Char.isDigit &&
    decide (1000 ≤ digitsToNat (((fastAccNorm accession).data.drop i).take 5)) &&
    decide (digitsToNat (((fastAccNorm accession).data.drop i).take 5) ≤ 5000))

/-!
## Helper lemmas on the string model
-/

theorem char_toNat_ofNat_lt (n : Nat) (h : n < 55296) : (Char.ofNat n).toNat = n := by
  unfold Char.ofNat
  rw [dif_pos (Or.inl h)]
  rfl

theorem toUpper_ne_lowercase_p (c : Char) : Char.toUpper c ≠ 'p' := by
  intro h
  have h' : (Char.toUpper c).toNat = 112 := by rw [h]; rfl
  simp only [Char.toUpper] at h'
  split at h'
  · rename_i hc
    rw [char_toNat_ofNat_lt (c.toNat - 32) (by omega)] at h'
    omega
  · rename_i hc
    omega

theorem pyIn_cons_eq_false {c : Char} {cs : List Char} {hay : List Char}
    (h : ∀ x ∈ hay, x ≠ c) : pyIn (c :: cs) hay = false := by
  induction hay with
  | nil => rfl
  | cons d ds ih =>
    have hdc : c ≠ d := fun hcd => h d (List.mem_cons_self d ds) hcd.symm
    have hd : (c == d) = false := beq_eq_false_iff_ne.mpr hdc
    simp only [pyIn, isPrefixOfB, hd, Bool.false_and, Bool.false_or]
    exact ih (fun x hx => h x (List.mem_cons_of_mem d hx))

theorem isPrefixOfB_iff (p s : List Char) :
    isPrefixOfB p s = true ↔ ∃ t, s = p ++ t := by
  induction p generalizing s with
  | nil => simp [isPrefixOfB]
  | cons c cs ih =>
    cases s with
    | nil => simp [isPrefixOfB]
    | cons d ds =>
      simp only [isPrefixOfB, Bool.and_eq_true, beq_iff_eq, ih, List.cons_append,
        List.cons.injEq]
      constructor
      · rintro ⟨h1, t, h2⟩; exact ⟨t, h1.symm, h2⟩
      · rintro ⟨t, h1, h2⟩; exact ⟨h1.symm, t, h2⟩

theorem plasmid_not_in_strUpper (s : String) :
    strContains (strUpper s) "plasmid" = false := by
  have hmem : ∀ x ∈ s.data.map Char.toUpper, x ≠ 'p' := by
    intro x hx
    obtain ⟨c, _, rfl⟩ := List.mem_map.mp hx
    exact toUpper_ne_lowercase_p c
  exact pyIn_cons_eq_false hmem

/-!
## Theorems for claims C1, C3, C4, C5
-/

/-- C1: the claim says any (title, accession) pair in which "plasmid" occurs
case-insensitively in the title or in the accession classifies as "plasmid".
The code compares the lowercase literal against the UPPERCASED accession, so
the accession branch can never fire: for title = "" and accession =
"PLASMID1" (which does contain "plasmid" case-insensitively) the classifier
returns "unknown", not "plasmid". -/
theorem C1_plasmid_accession_dead_branch :
    contains_case_insensitive "PLASMID1" "plasmid" = true ∧
    _detect_genome_type "" "PLASMID1" = "unknown" ∧
    _detect_genome_type "" "PLASMID1" ≠ "plasmid" := by
  refine ⟨by decide, by decide, by decide⟩

/-- C3: `_passes_genome_type_filter` returns true iff, when "all" is in the
include list, the type is not excluded; otherwise iff the type is included
and not excluded. -/
theorem C3_passes_filter_spec (genome_type : String)
    (include_types exclude_types : List String) :
    _passes_genome_type_filter genome_type include_types exclude_types = true ↔
      (if "all" ∈ include_types then genome_type ∉ exclude_types
       else genome_type ∈ include_types ∧ genome_type ∉ exclude_types) := by
  unfold _passes_genome_type_filter
  by_cases hall : "all" ∈ include_types
  · simp [hall]
  · simp [hall]

/-- C4 counterexample: "NZ_AB01500" has prefix NZ_ (and is outside the
complete-genome prefix set), and contains the 5-digit token "01500" whose
value lies in the claimed range 01000-05000, yet `fast_detect_genome_type`
returns "complete", not "contig" — the code only tests the five exact tokens
01000/02000/03000/04000/05000. -/
theorem C4_range_token_cex :
    spec_contig_range_token "NZ_AB01500" = true ∧
    strStartsWith (fastAccNorm "NZ_AB01500") "NZ_" = true ∧
    strStartsWith (fastAccNorm "NZ_AB01500") "NZ_CP" = false ∧
    strStartsWith (fastAccNorm "NZ_AB01500") "NZ_NC" = false ∧
    fast_detect_genome_type "NZ_AB01500" ≠ "contig" ∧
    fast_detect_genome_type "NZ_AB01500" = "complete" := by
  refine ⟨by decide, by decide, by decide, by decide, by decide, by decide⟩

/-- C4 (amended): for an accession whose normalised form has prefix NZ_ but
not NZ_CP or NZ_NC, if one of the five exact contig-numbering tokens
01000, 02000, 03000, 04000, 05000 occurs anywhere, or the 8-zero WGS
master-record token occurs anywhere, then `fast_detect_genome_type` returns
"contig". -/
theorem C4_amended_contig_tokens (accession : String)
    (h1 : strStartsWith (fastAccNorm accession) "NZ_" = true)
    (h2 : strStartsWith (fastAccNorm accession) "NZ_CP" = false)
    (h3 : strStartsWith (fastAccNorm accession) "NZ_NC" = false)
    (h4 : (strContains (fastAccNorm accession) "01000" ||
           strContains (fastAccNorm accession) "02000" ||
           strContains (fastAccNorm accession) "03000" ||
           strContains (fastAccNorm accession) "04000" ||
           strContains (fastAccNorm accession) "05000") = true ∨
          strContains (fastAccNorm accession) "00000000" = true) :
    fast_detect_genome_type accession = "contig" := by
  obtain ⟨t, ht⟩ := (isPrefixOfB_iff "NZ_".data (fastAccNorm accession).data).mp h1
  have hcp : strStartsWith (fastAccNorm accession) "CP" = false := by
    unfold strStartsWith; rw [ht]; rfl
  have hnc : strStartsWith (fastAccNorm accession) "NC_" = false := by
    unfold strStartsWith; rw [ht]; rfl
  have hap : strStartsWith (fastAccNorm accession) "AP" = false := by
    unfold strStartsWith; rw [ht]; rfl
  rcases h4 with h5 | h8
  · simp [fast_detect_genome_type, hcp, hnc, hap, h2, h3, h1, h5]
  · cases h5 : (strContains (fastAccNorm accession) "01000" ||
        strContains (fastAccNorm accession) "02000" ||
        strContains (fastAccNorm accession) "03000" ||
        strContains (fastAccNorm accession) "04000" ||
        strContains (fastAccNorm accession) "05000") with
    | true => simp [fast_detect_genome_type, hcp, hnc, hap, h2, h3, h1, h5]
    | false =>
        have h5a := h5
        simp only [Bool.or_eq_false_iff] at h5a
        simp [fast_detect_genome_type, hcp, hnc, hap, h2, h3, h1,
          h5a.1.1.1.1, h5a.1.1.1.2, h5a.1.1.2, h5a.1.2, h5a.2, h8]

/-- Witness for C4 (amended): the spec's own example accession
"NZ_AB123401000123" classifies as "contig". -/
theorem C4_amended_witness :
    fast_detect_genome_type "NZ_AB123401000123" = "contig" :=
  C4_amended_contig_tokens "NZ_AB123401000123" (by decide) (by decide) (by decide)
    (Or.inl (by decide))

/-- C5 counterexample: the title "chromosome" contains "chromosome" and none
of plasmid/scaffold/contig, yet `_detect_genome_type` returns "complete" (rule
2 fires first), never "chromosome": rule 5 is unreachable. -/
theorem C5_chromosome_rule_cex :
    strContains (strLower "chromosome") "chromosome" = true ∧
    strContains (strLower "chromosome") "plasmid" = false ∧
    strContains (strLower "chromosome") "scaffold" = false ∧
    strContains (strLower "chromosome") "contig" = false ∧
    _detect_genome_type "chromosome" "" = "complete" ∧
    _detect_genome_type "chromosome" "" ≠ "chromosome" := by
  refine ⟨by decide, by decide, by decide, by decide, by decide, by decide⟩

/-- C5 (amended): every (title, accession) pair whose title contains
"chromosome" (case-insensitively) while none of plasmid/scaffold/contig appear
in the title is classified as "complete" by rule 2; rule 5's output
"chromosome" is never produced for such inputs. -/
theorem C5_amended_chromosome_title (title accession : String)
    (h1 : strContains (strLower title) "chromosome" = true)
    (h2 : strContains (strLower title) "plasmid" = false)
    (h3 : strContains (strLower title) "scaffold" = false)
    (h4 : strContains (strLower title) "contig" = false) :
    _detect_genome_type title accession = "complete" := by
  simp [_detect_genome_type, h1, h2, plasmid_not_in_strUpper accession]

/-- Witness for C5 (amended) at a concrete input. -/
theorem C5_amended_witness :
    _detect_genome_type "Main chromosome" "XY123" = "complete" :=
  C5_amended_chromosome_title "Main chromosome" "XY123" (by decide) (by decide)
    (by decide) (by decide)

/-!
## Download orchestration (scripts/download_accessions.py lines 188-223,
scripts/fast_download.py lines 102-122)

A download task calls `extractor.download_fasta(acc, output_dir)`; the
collaborator either returns a boolean or raises, which the orchestrator
converts into a failed outcome.  We model the collaborator as
`String → Except String Bool` (`.error` = raised exception).  The worker pool
only schedules tasks; which tasks run, and the outcome each produces, do not
depend on the pool width, so the pool width `W` is carried as a parameter
with no influence on the outcome multiset.  `ThreadPoolExecutor.as_completed`
reports outcomes in a nondeterministic order: the theorems below therefore
quantify over an arbitrary permutation of the submission-order outcome list.
-/

/-- One reported download outcome (accession plus success flag). -/
structure DownloadOutcome where
  accession : String
  succeeded : Bool
deriving DecidableEq

/-- Outcome of one download task: `future.result()` returning `True` counts as
success; returning `False` or raising counts as failure. -/
def outcomeFor (download : String → Except String Bool) (acc : String) :
    DownloadOutcome :=
  match download acc with
  | Except.ok b => ⟨acc, b⟩
  | Except.error _ => ⟨acc, false⟩

/-- The batch partition `accessions[i:i+100]` used by
scripts/download_accessions.py (batch_size = 100, line 191). -/
def toBatches (l : List String) : List (List String) :=
  if h : l = [] then [] else l.take 100 :: toBatches (l.drop 100)
termination_by l.length
decreasing_by
  simp only [List.length_drop]
  have : 0 < l.length := List.length_pos.mpr h
  omega

theorem toBatches_flatten (l : List String) : (toBatches l).flatten = l := by
  rw [toBatches]
  split
  · simp [*]
  · rw [List.flatten_cons, toBatches_flatten (l.drop 100)]
    exact List.take_append_drop 100 l
termination_by l.length
decreasing_by
  simp only [List.length_drop]
  have : 0 < l.length := List.length_pos.mpr (by assumption)
  omega

/-- Submission-order outcome list of the batched orchestrator in
scripts/download_accessions.py: one future per accession of each batch,
batches processed in order. -/
def downloadAccessionsOutcomes (W : Nat) (download : String → Except String Bool)
    (accessions : List String) : List DownloadOutcome :=
  ((toBatches accessions).map (fun batch => batch.map (outcomeFor download))).flatten

/-- Submission-order outcome list of the orchestrator in
scripts/fast_download.py: one future per accession, single flood. -/
def fastDownloadOutcomes (W : Nat) (download : String → Except String Bool)
    (accessions : List String) : List DownloadOutcome :=
  accessions.map (outcomeFor download)

theorem downloadAccessionsOutcomes_eq_map (W : Nat)
    (download : String → Except String Bool) (accessions : List String) :
    downloadAccessionsOutcomes W download accessions =
      accessions.map (outcomeFor download) := by
  unfold downloadAccessionsOutcomes
  rw [← List.map_flatten, toBatches_flatten]

theorem countP_add_countP_not {α : Type} (p : α → Bool) (l : List α) :
    l.countP p + l.countP (fun a => !(p a)) = l.length := by
  induction l with
  | nil => rfl
  | cons a as ih =>
    cases h : p a <;>
      simp [List.countP_cons, h, List.length_cons, ← ih] <;> omega

/-- C2: for any input list of N accessions and any pool width W in [1,10],
each orchestrator produces exactly N outcomes, one per submitted accession
(no omissions, no duplicates): any reported order is a permutation of the
submission-order outcomes, its length is N, the reported accessions are a
permutation of (hence set-equal to, with multiplicities) the input list, and
the success and failure counts sum to N.  Stated for the batched orchestrator
of download_accessions.py and the single-flood orchestrator of
fast_download.py. -/
theorem C2_orchestrator_cardinality (W : Nat)
    (download : String → Except String Bool) (accessions : List String)
    (reported fastReported : List DownloadOutcome)
    (hW1 : 1 ≤ W) (hW2 : W ≤ 10)
    (hrep : List.Perm reported (downloadAccessionsOutcomes W download accessions))
    (hfast : List.Perm fastReported (fastDownloadOutcomes W download accessions)) :
    (reported.length = accessions.length ∧
     List.Perm (reported.map DownloadOutcome.accession) accessions ∧
     reported.countP (fun o => o.succeeded) +
       reported.countP (fun o => !o.succeeded) = accessions.length) ∧
    (fastReported.length = accessions.length ∧
     List.Perm (fastReported.map DownloadOutcome.accession) accessions ∧
     fastReported.countP (fun o => o.succeeded) +
       fastReported.countP (fun o => !o.succeeded) = accessions.length) := by
  rw [downloadAccessionsOutcomes_eq_map] at hrep
  unfold fastDownloadOutcomes at hfast
  have hpt : ∀ a, DownloadOutcome.accession (outcomeFor download a) = a := by
    intro a
    unfold outcomeFor
    cases download a <;> rfl
  have hacc : ∀ l : List String,
      (l.map (outcomeFor download)).map DownloadOutcome.accession = l := by
    intro l
    rw [List.map_map]
    calc l.map (DownloadOutcome.accession ∘ outcomeFor download)
        = l.map id := List.map_congr_left (fun a _ => hpt a)
      _ = l := List.map_id l
  constructor
  · refine ⟨?_, ?_, ?_⟩
    · rw [hrep.length_eq, List.length_map]
    · have := hrep.map DownloadOutcome.accession
      rw [hacc] at this
      exact this
    · rw [hrep.countP_eq, hrep.countP_eq, countP_add_countP_not, List.length_map]
  · refine ⟨?_, ?_, ?_⟩
    · rw [hfast.length_eq, List.length_map]
    · have := hfast.map DownloadOutcome.accession
      rw [hacc] at this
      exact this
    · rw [hfast.countP_eq, hfast.countP_eq, countP_add_countP_not, List.length_map]

/-- Witness for C2 at a concrete pool width, download collaborator, input
list, and reported order. -/
theorem C2_orchestrator_cardinality_witness :
    (downloadAccessionsOutcomes 6 (fun _ => Except.ok true) ["A", "B"]).length = 2 ∧
    (fastDownloadOutcomes 6 (fun _ => Except.ok true) ["A", "B"]).length = 2 := by
  have h := C2_orchestrator_cardinality 6 (fun _ => Except.ok true) ["A", "B"]
    (downloadAccessionsOutcomes 6 (fun _ => Except.ok true) ["A", "B"])
    (fastDownloadOutcomes 6 (fun _ => Except.ok true) ["A", "B"])
    (by decide) (by decide) (List.Perm.refl _) (List.Perm.refl _)
  exact ⟨h.1.1, h.2.1⟩

/-!
## Worker-pool width configuration
-/

/-- Effective pool width in scripts/fast_download.py:
`args.parallel_downloads = min(args.parallel_downloads, 10)` (line 63). -/
def fast_download_pool_width (parallel_downloads : Int) : Int :=
  min parallel_downloads 10

/-- Effective pool width in scripts/download_accessions.py:
`args.parallel_downloads` is passed to `ThreadPoolExecutor` unmodified
(line 200); no clamping is applied anywhere. -/
def download_accessions_pool_width (parallel_downloads : Int) : Int :=
  parallel_downloads

/-- C6 counterexample: download_accessions.py runs a configured width of 20
as 20 (no ceiling), and fast_download.py runs a configured width of 0 as 0
(no floor), so neither script clamps into [1, 10] as the claim states. -/
theorem C6_no_clamp_cex :
    download_accessions_pool_width 20 = 20 ∧
    ¬(download_accessions_pool_width 20 ≤ 10) ∧
    fast_download_pool_width 0 = 0 ∧
    fast_download_pool_width 0 < 1 := by
  refine ⟨by decide, by decide, by decide, by decide⟩

/-- C6 (amended): fast_download.py caps the configured width at the ceiling
10 — every configured value above 10 runs as exactly 10 — and leaves values
at most 10 (including values below 1) unchanged; download_accessions.py
applies no clamping at all. -/
theorem C6_amended_pool_width (w : Int) :
    fast_download_pool_width w ≤ 10 ∧
    (10 ≤ w → fast_download_pool_width w = 10) ∧
    (w ≤ 10 → fast_download_pool_width w = w) ∧
    download_accessions_pool_width w = w := by
  refine ⟨min_le_right w 10, fun h => min_eq_right h, fun h => min_eq_left h, rfl⟩

/-- Witness for C6 (amended) at concrete configured widths on both sides of
the ceiling. -/
theorem C6_amended_pool_width_witness :
    fast_download_pool_width 20 = 10 ∧
    fast_download_pool_width 20 ≤ 10 ∧
    fast_download_pool_width 7 = 7 ∧
    download_accessions_pool_width 20 = 20 :=
  ⟨(C6_amended_pool_width 20).2.1 (by decide), (C6_amended_pool_width 20).1,
   (C6_amended_pool_width 7).2.2.1 (by decide),
   (C6_amended_pool_width 20).2.2.2⟩

/-!
## Python values and the metadata flattening layer
(scripts/download_accessions.py lines 362-428)

Metadata records are Python dicts with string keys; values are strings,
numbers, None, lists, or nested dicts.  Dicts are modelled as association
lists (Python dicts have unique keys and preserve insertion order).  Python
floats are modelled as rationals.
-/

inductive PyVal where
  | str (s : String)
  | int (n : Int)
  | rat (q : ℚ)
  | bool (b : Bool)
  | none
  | list (items : List PyVal)
  | dict (items : List (String × PyVal))

mutual

/-- Model of Python `repr` for the values above (`repr` of a float is
approximated through the rational's rendering; no theorem depends on it). -/
def pyRepr : PyVal → String
  | .str s => "\x27" ++ s ++ "\x27"
  | .int n => toString n
  | .rat q => toString q
  | .bool b => if b then "True" else "False"
  | .none => "None"
  | .list items => "[" ++ String.intercalate ", " (pyReprList items) ++ "]"
  | .dict items => "\x7b" ++ String.intercalate ", " (pyReprDict items) ++ "\x7d"

def pyReprList : List PyVal → List String
  | [] => []
  | v :: vs => pyRepr v :: pyReprList vs

def pyReprDict : List (String × PyVal) → List String
  | [] => []
  | (k, v) :: ds => ("\x27" ++ k ++ "\x27: " ++ pyRepr v) :: pyReprDict ds

end

/-- Model of Python `str(v)`. -/
def pyStr : PyVal → String
  | .str s => s
  | v => pyRepr v

/-- Python `d.get(key, default)` on a dict. -/
def dictGet (d : List (String × PyVal)) (key : String) (dflt : PyVal) : PyVal :=
  match d.find? (fun p => p.1 == key) with
  | some p => p.2
  | Option.none => dflt

/-- Python `d[key] = v` on a dict: overwrite in place if the key exists,
append otherwise. -/
def setItem (d : List (String × PyVal)) (key : String) (v : PyVal) :
    List (String × PyVal) :=
  if d.any (fun p => p.1 == key) then
    d.map (fun p => if p.1 == key then (key, v) else p)
  else d ++ [(key, v)]

/-- Python `"; ".join(l) if l else ""` (join of the empty list is also ""). -/
def joinSemi (l : List String) : String :=
  if l.isEmpty then "" else String.intercalate "; " l

/-- One `mic_data` entry rendered by `save_metadata_to_csv`:
`f"{antibiotic}: {mic_value}"` for a dict entry, `str(entry)` otherwise. -/
def micEntryString (v : PyVal) : String :=
  match v with
  | .dict d => pyStr (dictGet d "antibiotic" (.str "Unknown")) ++ ": " ++
               pyStr (dictGet d "mic_value" (.str "Unknown"))
  | w => pyStr w

/-- One `antibiotic_resistance` entry rendered by `save_metadata_to_csv`. -/
def resistanceEntryString (v : PyVal) : String :=
  match v with
  | .dict d => pyStr (dictGet d "antibiotic" (.str "Unknown")) ++ ": " ++
               pyStr (dictGet d "resistance" (.str "Unknown"))
  | w => pyStr w

/-- One `amr_phenotypes` entry: Python joins the raw elements
(`"; ".join(value)`), which presumes string elements; a non-string element
would raise TypeError in Python and is rendered via `str` here (never
exercised by the scripts or the theorems). -/
def amrEntryString (v : PyVal) : String :=
  match v with
  | .str s => s
  | w => pyStr w

/-- Flattening of one key/value pair of a record, following the body of the
per-item loop in `save_metadata_to_csv` (lines 370-401): list-valued fields
collapse to one joined cell (with dedicated renderings for amr_phenotypes,
mic_data and antibiotic_resistance, in that order of checks), nested dicts
expand to `parentKey_subKey` cells, `None` renders as the empty string, and
any other scalar renders via `str`. -/
def flattenPair (key : String) (value : PyVal) : List (String × String) :=
  match value with
  | .list l =>
    if key == "amr_phenotypes" then [(key, joinSemi (l.map amrEntryString))]
    else if key == "mic_data" then [(key, joinSemi (l.map micEntryString))]
    else if key == "antibiotic_resistance" then
      [(key, joinSemi (l.map resistanceEntryString))]
    else [(key, joinSemi (l.map pyStr))]
  | .dict d =>
    d.map (fun p =>
      (key ++ "_" ++ p.1, match p.2 with | .none => "" | v => pyStr v))
  | .none => [(key, "")]
  | v => [(key, pyStr v)]

/-- Flattening of one whole record (`flat_item` in the source). -/
def flattenItem (item : List (String × PyVal)) : List (String × String) :=
  (item.map (fun p => flattenPair p.1 p.2)).flatten

/-- The fixed priority column order of `save_metadata_to_csv` (lines 405-409). -/
def priority_fields : List String :=
  ["accession", "genome_id", "organism", "genus", "species", "strain", "title",
   "biosample", "bioproject", "collection_date", "country", "host",
   "isolation_source", "amr_phenotypes", "mic_data", "antibiotic_resistance",
   "genome_type"]

/-- Set-insertion of a field name (Python `all_fields` is a set; only
membership matters downstream, so a duplicate-free list is a faithful model). -/
def insertField (s : List String) (k : String) : List String :=
  if s.contains k then s else s ++ [k]

/-- The union of the keys of all flattened records (`all_fields`,
lines 412-414). -/
def collectFields (rows : List (List (String × String))) : List String :=
  rows.foldl (fun s row => row.foldl (fun s2 p => insertField s2 p.1) s) []

/-- Code-point lexicographic order on strings, as Python compares `str`. -/
def strLeB : List Char → List Char → Bool
  | [], _ => true
  | _ :: _, [] => false
  | c :: cs, d :: ds =>
    if c.toNat < d.toNat then true
    else if d.toNat < c.toNat then false
    else strLeB cs ds

/-- Insertion sort on strings; Python `sorted` on distinct string keys. -/
def insertSorted (x : String) : List String → List String
  | [] => [x]
  | y :: ys => if strLeB x.data y.data then x :: y :: ys else y :: insertSorted x ys

def sortStrings (l : List String) : List String := l.foldr insertSorted []

/-- The CSV header of `save_metadata_to_csv` (lines 416-423): priority fields
that actually occur, in priority order, then the remaining observed fields in
lexicographic order.  (The source removes matched priority fields from the
set before sorting the rest; filtering them out is the same operation.) -/
def csvFieldnames (rows : List (List (String × String))) : List String :=
  priority_fields.filter (fun f => (collectFields rows).contains f) ++
    sortStrings ((collectFields rows).filter
      (fun f => !(priority_fields.contains f)))

/-- The tabular artifact written by `save_metadata_to_csv`: the header and
one flattened row per record. -/
structure CsvOutput where
  fieldnames : List String
  rows : List (List (String × String))
deriving DecidableEq

/-- Embedding of `save_metadata_to_csv` (lines 362-428): `Option.none` models
the early `return` on an empty record list, in which case no file is written
at all. -/
def save_metadata_to_csv (records : List (List (String × PyVal))) :
    Option CsvOutput :=
  if records.isEmpty then Option.none
  else some ⟨csvFieldnames (records.map flattenItem), records.map flattenItem⟩

/-- The empty-shell record built per downloaded genome id in the
final-metadata exception handler (lines 328-348). -/
def empty_record (gid : String) : List (String × PyVal) :=
  [("genome_id", .str gid), ("accession", .str gid), ("organism", .none),
   ("genus", .none), ("species", .none), ("title", .none),
   ("biosample", .none), ("bioproject", .none), ("collection_date", .none),
   ("country", .none), ("host", .none), ("isolation_source", .none),
   ("mic_data", .list []), ("antibiotic_resistance", .list []),
   ("genome_type", .str "unknown"), ("quality_score", .int 0),
   ("resistance_phenotype", .list [])]

/-- The metadata output formats accepted by the command line
(`--metadata_format`, choices `json`/`csv`, line 93). -/
def metadata_format_choices : List String := ["json", "csv"]

/-- The metadata artifact emitted by the exception handler when final
metadata resolution fails entirely (lines 316-350): an empty-shell CSV is
written only when the configured format is "csv" (lines 327-350); nothing is
written for "json". -/
def fallback_metadata_artifact (metadata_format : String)
    (genome_ids : List String) : Option CsvOutput :=
  if metadata_format == "csv" then
    save_metadata_to_csv (genome_ids.map empty_record)
  else Option.none

/-!
## The non-harvester metadata resolution chain
(scripts/download_accessions.py lines 251-272)

`parse_gbff` models "a local GBFF annotation file exists for this genome id
and parses to this record" (`gbff_map` plus `extractor.parse_gbff_metadata`);
`network_batch` models `extractor._extract_metadata_batch`, with `.error`
standing for a raised exception (in which case nothing is appended).
-/

/-- Embedding of the fallback resolution loop: GBFF-parsed records (with the
accession field overwritten to the genome id, line 259) in input order,
followed by one batched network lookup for the ids without a local file. -/
def resolve_standard_metadata (genome_ids : List String)
    (parse_gbff : String → Option (List (String × PyVal)))
    (network_batch : List String → Except String (List (List (String × PyVal)))) :
    List (List (String × PyVal)) :=
  (genome_ids.filterMap (fun gid =>
    (parse_gbff gid).map (fun meta => setItem meta "accession" (.str gid)))) ++
  (if (genome_ids.filter (fun gid => (parse_gbff gid).isNone)).isEmpty then []
   else
     match network_batch (genome_ids.filter (fun gid => (parse_gbff gid).isNone)) with
     | Except.ok recs => recs
     | Except.error _ => [])

/-!
## Theorems for claims C7, C8, C9
-/

/-- C7: tabular flattening renders each `mic_data` entry as
"antibiotic: mic_value" and each `antibiotic_resistance` entry as
"antibiotic: resistance", joined with "; "; in particular a record with
`mic_data = [(antibiotic "Ampicillin", mic_value "8")]` flattens to the cell
"Ampicillin: 8". -/
theorem C7_mic_resistance_flattening (ms rs : List (String × String)) :
    flattenPair "mic_data"
        (.list (ms.map (fun p => PyVal.dict
          [("antibiotic", .str p.1), ("mic_value", .str p.2)]))) =
      [("mic_data", joinSemi (ms.map (fun p => p.1 ++ ": " ++ p.2)))] ∧
    flattenPair "antibiotic_resistance"
        (.list (rs.map (fun p => PyVal.dict
          [("antibiotic", .str p.1), ("resistance", .str p.2)]))) =
      [("antibiotic_resistance", joinSemi (rs.map (fun p => p.1 ++ ": " ++ p.2)))] ∧
    flattenItem [("mic_data", .list [PyVal.dict
        [("antibiotic", .str "Ampicillin"), ("mic_value", .str "8")]])] =
      [("mic_data", "Ampicillin: 8")] := by
  refine ⟨?_, ?_, rfl⟩
  · show [("mic_data", joinSemi ((ms.map (fun p => PyVal.dict
      [("antibiotic", .str p.1), ("mic_value", .str p.2)])).map micEntryString))] = _
    rw [List.map_map]
    have hmap : List.map (micEntryString ∘ fun p : String × String => PyVal.dict
        [("antibiotic", .str p.1), ("mic_value", .str p.2)]) ms =
        List.map (fun p : String × String => p.1 ++ ": " ++ p.2) ms :=
      List.map_congr_left (fun p _ => rfl)
    rw [hmap]
  · show [("antibiotic_resistance", joinSemi ((rs.map (fun p => PyVal.dict
      [("antibiotic", .str p.1), ("resistance", .str p.2)])).map resistanceEntryString))] = _
    rw [List.map_map]
    have hmap : List.map (resistanceEntryString ∘ fun p : String × String => PyVal.dict
        [("antibiotic", .str p.1), ("resistance", .str p.2)]) rs =
        List.map (fun p : String × String => p.1 ++ ": " ++ p.2) rs :=
      List.map_congr_left (fun p _ => rfl)
    rw [hmap]

/-- The flattening of one empty-shell record, written out. -/
def empty_record_row (gid : String) : List (String × String) :=
  [("genome_id", gid), ("accession", gid), ("organism", ""), ("genus", ""),
   ("species", ""), ("title", ""), ("biosample", ""), ("bioproject", ""),
   ("collection_date", ""), ("country", ""), ("host", ""),
   ("isolation_source", ""), ("mic_data", ""), ("antibiotic_resistance", ""),
   ("genome_type", "unknown"), ("quality_score", "0"),
   ("resistance_phenotype", "")]

theorem flattenItem_empty_record (gid : String) :
    flattenItem (empty_record gid) = empty_record_row gid := rfl

/-- The key set of every empty-shell record. -/
def empty_record_fields : List String :=
  ["genome_id", "accession", "organism", "genus", "species", "title",
   "biosample", "bioproject", "collection_date", "country", "host",
   "isolation_source", "mic_data", "antibiotic_resistance", "genome_type",
   "quality_score", "resistance_phenotype"]

/-- The CSV header produced for empty-shell records: matched priority fields
in priority order, then the two non-priority fields in lexicographic order. -/
def empty_record_csv_header : List String :=
  ["accession", "genome_id", "organism", "genus", "species", "title",
   "biosample", "bioproject", "collection_date", "country", "host",
   "isolation_source", "mic_data", "antibiotic_resistance", "genome_type",
   "quality_score", "resistance_phenotype"]

theorem foldl_insertField_of_subset (row : List (String × String)) :
    ∀ s : List String, (∀ p ∈ row, s.contains p.1 = true) →
      row.foldl (fun s2 p => insertField s2 p.1) s = s := by
  induction row with
  | nil => intro s _; rfl
  | cons p ps ih =>
    intro s h
    simp only [List.foldl_cons]
    rw [insertField, if_pos (h p (List.mem_cons_self p ps))]
    exact ih s (fun q hq => h q (List.mem_cons_of_mem p hq))

theorem foldl_insertField_keys (row : List (String × String)) :
    ∀ s : List String, row.foldl (fun s2 p => insertField s2 p.1) s =
      (row.map Prod.fst).foldl insertField s := by
  induction row with
  | nil => intro s; rfl
  | cons p ps ih =>
    intro s
    simp only [List.foldl_cons, List.map_cons]
    exact ih _

theorem mem_empty_record_row_contains (gid : String) (p : String × String)
    (hp : p ∈ empty_record_row gid) :
    empty_record_fields.contains p.1 = true := by
  simp only [empty_record_row, List.mem_cons, List.not_mem_nil, or_false] at hp
  rcases hp with rfl | rfl | rfl | rfl | rfl | rfl | rfl | rfl | rfl | rfl | rfl |
    rfl | rfl | rfl | rfl | rfl | rfl <;> rfl

theorem collectFields_empty_records (g : String) (rest : List String) :
    collectFields (((g :: rest).map empty_record).map flattenItem) =
      empty_record_fields := by
  have haux : ∀ gids : List String,
      (gids.map (fun gid => flattenItem (empty_record gid))).foldl
        (fun s row => row.foldl (fun s2 p => insertField s2 p.1) s)
        empty_record_fields = empty_record_fields := by
    intro gids
    induction gids with
    | nil => rfl
    | cons a as ih =>
      simp only [List.map_cons, List.foldl_cons]
      rw [flattenItem_empty_record a,
        foldl_insertField_of_subset _ _ (mem_empty_record_row_contains a)]
      exact ih
  unfold collectFields
  simp only [List.map_map, List.map_cons, List.foldl_cons, Function.comp]
  rw [flattenItem_empty_record g, foldl_insertField_keys]
  have hkeys : (empty_record_row g).map Prod.fst = empty_record_fields := rfl
  rw [hkeys]
  have h0 : empty_record_fields.foldl insertField [] = empty_record_fields := by
    decide
  rw [h0]
  exact haux rest

/-- C8 counterexample: "json" is a configured metadata output format, yet
when final metadata resolution fails entirely the exception handler writes no
metadata artifact at all for it — the empty-shell fallback exists only for
"csv". -/
theorem C8_json_no_artifact_cex :
    metadata_format_choices.contains "json" = true ∧
    fallback_metadata_artifact "json" ["G1"] = Option.none := by
  refine ⟨by decide, rfl⟩

/-- C8 (amended): when final metadata resolution fails entirely and the
configured metadata format is "csv" and at least one genome was downloaded,
an empty-shell CSV is emitted with the priority-ordered columns of the
empty-shell records and one row per downloaded genome id, whose identifier
cells carry the genome id, whose genome_type cell is "unknown", whose
quality_score cell is "0", and whose remaining cells are empty; for "json"
no fallback metadata artifact is written. -/
theorem C8_amended_csv_fallback (g : String) (rest : List String) :
    fallback_metadata_artifact "csv" (g :: rest) =
      some ⟨empty_record_csv_header, (g :: rest).map empty_record_row⟩ ∧
    fallback_metadata_artifact "json" (g :: rest) = Option.none := by
  constructor
  · have hstep : fallback_metadata_artifact "csv" (g :: rest) =
        save_metadata_to_csv ((g :: rest).map empty_record) := rfl
    rw [hstep]
    unfold save_metadata_to_csv
    rw [if_neg (by simp)]
    have hrows : ((g :: rest).map empty_record).map flattenItem =
        (g :: rest).map empty_record_row := by
      rw [List.map_map]
      exact List.map_congr_left (fun gid _ => flattenItem_empty_record gid)
    rw [hrows]
    have hfields : csvFieldnames ((g :: rest).map empty_record_row) =
        empty_record_csv_header := by
      unfold csvFieldnames
      have hcf : collectFields ((g :: rest).map empty_record_row) =
          empty_record_fields := by
        have := collectFields_empty_records g rest
        rw [List.map_map] at this
        calc collectFields ((g :: rest).map empty_record_row)
            = collectFields ((g :: rest).map (flattenItem ∘ empty_record)) := by
              rw [List.map_congr_left
                (fun gid _ => (flattenItem_empty_record gid).symm)]
              rfl
          _ = empty_record_fields := this
      rw [hcf]
      decide
    rw [hfields]
  · rfl

theorem find?_map_overwrite (key : String) (v : PyVal) :
    ∀ d : List (String × PyVal), d.any (fun p => p.1 == key) = true →
      (d.map (fun p => if p.1 == key then (key, v) else p)).find?
        (fun p => p.1 == key) = some (key, v) := by
  intro d
  induction d with
  | nil => intro h; simp at h
  | cons p ps ih =>
    intro h
    by_cases hp : (p.1 == key) = true
    · simp only [List.map_cons, if_pos hp]
      exact List.find?_cons_of_pos _ (by simp)
    · simp only [List.map_cons, if_neg hp]
      rw [List.find?_cons_of_neg _ (by simpa using hp)]
      apply ih
      simp only [List.any_cons, hp, Bool.false_or] at h
      simpa using h

theorem find?_append_of_none {α : Type} (p : α → Bool) (l1 l2 : List α)
    (h : l1.find? p = Option.none) : (l1 ++ l2).find? p = l2.find? p := by
  induction l1 with
  | nil => rfl
  | cons a as ih =>
    cases hpa : p a with
    | true =>
      rw [List.find?_cons_of_pos _ hpa] at h
      exact absurd h (by simp)
    | false =>
      rw [List.cons_append, List.find?_cons_of_neg _ (by simp [hpa])]
      apply ih
      rwa [List.find?_cons_of_neg _ (by simp [hpa])] at h

theorem find?_setItem (d : List (String × PyVal)) (key : String) (v : PyVal) :
    (setItem d key v).find? (fun p => p.1 == key) = some (key, v) := by
  unfold setItem
  by_cases h : d.any (fun p => p.1 == key) = true
  · rw [if_pos h]
    exact find?_map_overwrite key v d h
  · rw [if_neg h]
    have hnone : d.find? (fun p => p.1 == key) = Option.none := by
      rw [List.find?_eq_none]
      intro q hq hcontra
      exact h (List.any_eq_true.mpr ⟨q, hq, hcontra⟩)
    rw [find?_append_of_none _ _ _ hnone]
    exact List.find?_cons_of_pos _ (by simp)

/-- C9 counterexample: with one genome id "A", no local annotation file, and
a network lookup returning a record keyed "B", the resolver's output record
keeps accession "B" — the network path never overwrites the accession field,
so the claimed "overwrites/normalizes on every path" is false. -/
theorem C9_network_no_overwrite_cex :
    resolve_standard_metadata ["A"] (fun _ => Option.none)
        (fun _ => Except.ok [[("accession", PyVal.str "B")]]) =
      [[("accession", PyVal.str "B")]] ∧
    ("B" : String) ≠ "A" := by
  refine ⟨rfl, by decide⟩

/-- C9 (amended): only the local-annotation (GBFF parse) path normalizes the
accession: every genome id with a parsed local record contributes a record to
the resolver output whose "accession" field equals that genome id; records
from the network path are appended as returned by the collaborator, without
any overwrite. -/
theorem C9_amended_gbff_overwrites (genome_ids : List String)
    (parse_gbff : String → Option (List (String × PyVal)))
    (network_batch : List String → Except String (List (List (String × PyVal))))
    (gid : String) (meta : List (String × PyVal))
    (hmem : gid ∈ genome_ids) (hp : parse_gbff gid = some meta) :
    setItem meta "accession" (.str gid) ∈
      resolve_standard_metadata genome_ids parse_gbff network_batch ∧
    (setItem meta "accession" (.str gid)).find? (fun p => p.1 == "accession") =
      some ("accession", .str gid) := by
  constructor
  · unfold resolve_standard_metadata
    apply List.mem_append_left
    apply List.mem_filterMap.mpr
    exact ⟨gid, hmem, by rw [hp]; rfl⟩
  · exact find?_setItem meta "accession" (.str gid)

/-- Witness for C9 (amended) at a concrete resolver configuration. -/
theorem C9_amended_witness :
    setItem [("organism", PyVal.str "Ecoli")] "accession" (PyVal.str "A") ∈
      resolve_standard_metadata ["A"]
        (fun _ => some [("organism", PyVal.str "Ecoli")])
        (fun _ => Except.ok []) ∧
    (setItem [("organism", PyVal.str "Ecoli")] "accession"
        (PyVal.str "A")).find? (fun p => p.1 == "accession") =
      some ("accession", PyVal.str "A") :=
  C9_amended_gbff_overwrites ["A"] (fun _ => some [("organism", PyVal.str "Ecoli")])
    (fun _ => Except.ok []) "A" [("organism", PyVal.str "Ecoli")]
    (List.mem_singleton.mpr rfl) rfl

/-!
## scripts/extract_metadata.py — per-file FASTA metadata
(lines 13-37)

The filesystem is the collaborator: `readResult = some fd` models a file that
opens, reads and stats successfully (`fd.firstLine` is the first line read by
`readline()` without its trailing newline, `fd.restLines` the remaining
lines, `fd.sizeBytes` the stat size); `readResult = Option.none` models any
exception raised inside the `try` block (open, stat or read failure).
Python's 2-decimal float `round` is modelled over the rationals with
round-half-to-even; no theorem depends on the rounded value.
-/

structure FastaFileData where
  firstLine : String
  restLines : List String
  sizeBytes : Nat

/-- Round-half-to-even to an integer (Python `round`), over the rationals. -/
def roundHalfEven (q : ℚ) : ℤ :=
  if q - ⌊q⌋ < 1/2 then ⌊q⌋
  else if 1/2 < q - ⌊q⌋ then ⌊q⌋ + 1
  else if ⌊q⌋ % 2 = 0 then ⌊q⌋ else ⌊q⌋ + 1

/-- Python `round(size / (1024*1024), 2)`. -/
def round2MB (sizeBytes : Nat) : ℚ :=
  (roundHalfEven ((sizeBytes : ℚ) / 1048576 * 100) : ℚ) / 100

/-- The accession derived from the file name:
`fasta_file.name.replace(".fasta", "").replace(".fa", "")` (line 14). -/
def accession_from_name (fileName : String) : String :=
  strReplace (strReplace fileName ".fasta" "") ".fa" ""

/-- Embedding of `get_fasta_metadata` from scripts/extract_metadata.py
(lines 13-37).  The success branch counts the remaining lines starting with
">" and adds one when the (stripped) header line itself starts with ">";
the failure branch returns the "N/A"/"Failed" shell. -/
def get_fasta_metadata (fileName : String) (readResult : Option FastaFileData) :
    List (String × PyVal) :=
  match readResult with
  | some fd =>
    [("accession", .str (accession_from_name fileName)),
     ("file_name", .str fileName),
     ("file_size_MB", .rat (round2MB fd.sizeBytes)),
     ("sequences", .int
       (((fd.restLines.filter (fun l => strStartsWith l ">")).length : Int) +
        (if strStartsWith (strStrip fd.firstLine) ">" then 1 else 0))),
     ("header", .str (strTake (strStrip fd.firstLine) 80)),
     ("status", .str "OK")]
  | Option.none =>
    [("accession", .str (accession_from_name fileName)),
     ("file_name", .str fileName),
     ("file_size_MB", .str "N/A"),
     ("sequences", .str "N/A"),
     ("header", .str "N/A"),
     ("status", .str "Failed")]

/-- C10: `get_fasta_metadata` is total over its inputs — it always returns a
record with exactly the keys accession, file_name, file_size_MB, sequences,
header, status (in that order); on any read/stat failure the record carries
status "Failed" with "N/A" placeholders while accession is still derived from
the file name; on success the record carries status "OK" and the same derived
accession. -/
theorem C10_get_fasta_metadata_total (fileName : String)
    (readResult : Option FastaFileData) :
    (get_fasta_metadata fileName readResult).map Prod.fst =
      ["accession", "file_name", "file_size_MB", "sequences", "header",
       "status"] ∧
    (readResult = Option.none →
      (get_fasta_metadata fileName readResult).find?
          (fun p => p.1 == "status") = some ("status", .str "Failed") ∧
      (get_fasta_metadata fileName readResult).find?
          (fun p => p.1 == "accession") =
        some ("accession", .str (accession_from_name fileName)) ∧
      (get_fasta_metadata fileName readResult).find?
          (fun p => p.1 == "file_size_MB") = some ("file_size_MB", .str "N/A") ∧
      (get_fasta_metadata fileName readResult).find?
          (fun p => p.1 == "sequences") = some ("sequences", .str "N/A") ∧
      (get_fasta_metadata fileName readResult).find?
          (fun p => p.1 == "header") = some ("header", .str "N/A")) ∧
    (∀ fd, readResult = some fd →
      (get_fasta_metadata fileName readResult).find?
          (fun p => p.1 == "status") = some ("status", .str "OK") ∧
      (get_fasta_metadata fileName readResult).find?
          (fun p => p.1 == "accession") =
        some ("accession", .str (accession_from_name fileName))) := by
  refine ⟨?_, ?_, ?_⟩
  · cases readResult <;> rfl
  · rintro rfl
    refine ⟨rfl, rfl, rfl, rfl, rfl⟩
  · rintro fd rfl
    refine ⟨rfl, rfl⟩

/-- Witness for C10: both branches at concrete inputs. -/
theorem C10_get_fasta_metadata_total_witness :
    (get_fasta_metadata "NC_1.fasta" Option.none).find?
        (fun p => p.1 == "status") = some ("status", .str "Failed") ∧
    (get_fasta_metadata "NC_1.fasta" Option.none).find?
        (fun p => p.1 == "accession") = some ("accession", .str "NC_1") ∧
    (get_fasta_metadata "NC_1.fasta"
        (some ⟨">x", [">y"], 100⟩)).find? (fun p => p.1 == "status") =
      some ("status", .str "OK") := by
  have h1 := (C10_get_fasta_metadata_total "NC_1.fasta" Option.none).2.1 rfl
  have h2 := ((C10_get_fasta_metadata_total "NC_1.fasta"
    (some ⟨">x", [">y"], 100⟩)).2.2) ⟨">x", [">y"], 100⟩ rfl
  exact ⟨h1.1, h1.2.1, h2.1⟩
